import Mathlib

/-!
# NimbusFlags — verification of the flag-evaluation engine and access gate

Shallow embedding of the core of the NimbusFlags backend:

* `backend/services/flag_service.py` — the pure flag-evaluation engine
  (`evaluate_flag` and its inner `_matches_condition`);
* `backend/repositories/postgres_flags_repo.py` — the tenant-scoped flag
  store (`upsert_flag`, `get_flag_by_key`, `delete_flag`), modelled as a
  state machine on a list of rows;
* `backend/blueprints/flags/evaluate.py` — the evaluation endpoint
  (`post_evaluate`);
* `backend/services/clients_service.py` — client resolution by API key and
  by session token;
* `backend/services/auth_service.py` — the `require_session` decorator.

JSON-compatible values are embedded as the mutual inductive family
`JVal`/`JArr`/`JObj` (arrays and objects spelled out as their own
inductives so that equality is derivable); Python dicts of user
attributes are association lists with first-match lookup (Python dict
keys are unique, so first-match lookup agrees with dict lookup).
-/

namespace NimbusFlags

mutual
/-- JSON-compatible value, as stored in flag conditions/parameters and
supplied in user attributes. Numbers are modelled as integers; the claims
under verification do not depend on numeric representation. -/
inductive JVal where
  | null : JVal
  | bool : Bool → JVal
  | num : Int → JVal
  | str : String → JVal
  | list : JArr → JVal
  | obj : JObj → JVal
deriving DecidableEq

/-- A JSON array of `JVal`s. -/
inductive JArr where
  | nil : JArr
  | cons : JVal → JArr → JArr
deriving DecidableEq

/-- A JSON object: ordered key/value pairs. -/
inductive JObj where
  | nil : JObj
  | cons : String → JVal → JObj → JObj
deriving DecidableEq
end

/-- Python truthiness of a list: `not ref` is true exactly on the empty
list. -/
def JArr.isEmpty : JArr → Bool
  | .nil => true
  | .cons _ _ => false

/-- Python `val in ref` for a list `ref`: membership by value equality. -/
def JArr.containsVal : JArr → JVal → Bool
  | .nil, _ => false
  | .cons x tl, v => v == x || tl.containsVal v

/-- A user-attributes mapping: a Python dict of attribute name to value. -/
abbrev UserAttrs := List (String × JVal)

/-- One condition of a flag: its `"attribute"`, `"operator"` and
`"value"` entries (`attribute` is a Lean keyword, so the field carries
the source's local name `attr`). -/
structure Condition where
  attr : String
  operator : String
  value : JVal
deriving DecidableEq

/-- A flag definition as consumed by `evaluate_flag`:
`{"key": ..., "enabled": ..., "conditions": [...], "parameters": {...}}`. -/
structure Flag where
  key : String
  enabled : Bool
  conditions : List Condition
  parameters : List (String × JVal)
deriving DecidableEq

/-- The evaluation result (`EvaluateResponse` shape):
`{"flag_key": ..., "enabled": ..., "parameters": ...}`. -/
structure EvalResult where
  flag_key : String
  enabled : Bool
  parameters : List (String × JVal)
deriving DecidableEq

/-- Embedding of the inner `_matches_condition` of
`flag_service.evaluate_flag`: look up the condition's attribute in the
user attributes (missing attribute fails); dispatch on the operator
(`equals` compares by value; `in` requires a non-empty list reference and
tests membership); any other operator fails closed. -/
def matchesCondition (user_attributes : UserAttrs) (cond : Condition) : Bool :=
  match user_attributes.lookup cond.attr with
  | none => false
  | some val =>
    if cond.operator = "equals" then
      val == cond.value
    else if cond.operator = "in" then
      match cond.value with
      | JVal.list ref => if ref.isEmpty then false else ref.containsVal val
      | _ => false
    else
      false

/-- Embedding of `flag_service.evaluate_flag`: kill switch first, then all
conditions must pass (`List.all` short-circuits on the first failure, like
the source's loop); on success return the configured parameters. -/
def evaluate_flag (flag : Flag) (user_attributes : UserAttrs) : EvalResult :=
  if !flag.enabled then
    { flag_key := flag.key, enabled := false, parameters := [] }
  else if flag.conditions.all (matchesCondition user_attributes) then
    { flag_key := flag.key, enabled := true, parameters := flag.parameters }
  else
    { flag_key := flag.key, enabled := false, parameters := [] }

/-! ## Flag store (`backend/repositories/postgres_flags_repo.py`)

A row of the `flags` table. Tenant ids (UUIDs in the source) are opaque
identifiers, modelled as `Nat`; the surrogate `id` column and the
timestamp columns, which no claim reads, are omitted. The store is the
list of rows of the table. -/

/-- One row of the `flags` table (tenant-scoped flag record). -/
structure FlagRow where
  client_id : Nat
  key : String
  enabled : Bool
  conditions : List Condition
  parameters : List (String × JVal)
deriving DecidableEq

/-- The `flags` table: a list of rows with a uniqueness constraint on
`(client_id, key)` enforced by `upsert_flag`. -/
abbrev FlagStore := List FlagRow

/-- The flag-shaped columns of a row, as read by `evaluate_flag` (the
source passes the row dict straight to `evaluate_flag`, which only reads
`key`, `enabled`, `conditions` and `parameters`). -/
def FlagRow.toFlag (r : FlagRow) : Flag :=
  { key := r.key, enabled := r.enabled,
    conditions := r.conditions, parameters := r.parameters }

/-- Embedding of `postgres_flags_repo.upsert_flag`: `INSERT ... ON
CONFLICT (client_id, key) DO UPDATE` — if a row with the same
`(client_id, key)` exists its payload columns are replaced, otherwise a
new row for this tenant is inserted. -/
def upsert_flag (store : FlagStore) (client_id : Nat) (flag_data : Flag) : FlagStore :=
  if store.any (fun r => r.client_id == client_id && r.key == flag_data.key) then
    store.map (fun r =>
      if r.client_id == client_id && r.key == flag_data.key then
        { r with enabled := flag_data.enabled,
                 conditions := flag_data.conditions,
                 parameters := flag_data.parameters }
      else r)
  else
    store ++ [{ client_id := client_id, key := flag_data.key,
                enabled := flag_data.enabled,
                conditions := flag_data.conditions,
                parameters := flag_data.parameters }]

/-- Embedding of `postgres_flags_repo.get_flag_by_key`:
`SELECT * FROM flags WHERE client_id = ... AND key = ...`. -/
def get_flag_by_key (store : FlagStore) (client_id : Nat) (key : String) :
    Option FlagRow :=
  store.find? (fun r => r.client_id == client_id && r.key == key)

/-- Embedding of `postgres_flags_repo.delete_flag`:
`DELETE FROM flags WHERE client_id = ... AND key = ...` (idempotent). -/
def delete_flag (store : FlagStore) (client_id : Nat) (key : String) : FlagStore :=
  store.filter (fun r => !(r.client_id == client_id && r.key == key))

/-- One mutating operation against the flag store, carrying the tenant id
it is scoped to. -/
inductive FlagOp where
  | upsert (client_id : Nat) (flag_data : Flag)
  | delete (client_id : Nat) (key : String)
deriving DecidableEq

/-- Apply one store operation. -/
def applyFlagOp (store : FlagStore) : FlagOp → FlagStore
  | .upsert client_id flag_data => upsert_flag store client_id flag_data
  | .delete client_id key => delete_flag store client_id key

/-- Apply a sequence of store operations in order. -/
def applyFlagOps (ops : List FlagOp) (store : FlagStore) : FlagStore :=
  ops.foldl applyFlagOp store

/-! ## Evaluation endpoint (`backend/blueprints/flags/evaluate.py`) -/

/-- Outcome of `POST /evaluate/` after authentication: a 404 `NotFound`
error body, or a 200 with the engine's evaluation result. -/
inductive EvalResponse where
  | notFound : EvalResponse
  | ok : EvalResult → EvalResponse
deriving DecidableEq

/-- The HTTP status code the endpoint pairs with each outcome. -/
def EvalResponse.status : EvalResponse → Nat
  | .notFound => 404
  | .ok _ => 200

/-- Embedding of `evaluate.post_evaluate` after the access gate resolved
`client_id`: look the flag up for the authenticated tenant; 404 `NotFound`
if absent, else 200 with `evaluate_flag` applied to the row. -/
def post_evaluate (store : FlagStore) (client_id : Nat) (flag_key : String)
    (user_attributes : UserAttrs) : EvalResponse :=
  match get_flag_by_key store client_id flag_key with
  | none => .notFound
  | some row => .ok (evaluate_flag row.toFlag user_attributes)

/-! ## Clients and credential resolution
(`backend/services/clients_service.py`, `backend/services/auth_service.py`)

Client ids (UUIDs) are opaque `Nat`s; `created_at` timestamps are opaque
`Nat`s. The one-way digest functions (SHA-256 of API keys, the session
token digest) are external collaborators, so they appear as function
parameters; no claim depends on their value. -/

/-- One row of the `clients` table. -/
structure ClientRow where
  id : Nat
  email : String
  password_hash : String
  api_key_hash : String
  subscription_tier : String
  active : Bool
  created_at : Nat
deriving DecidableEq

/-- The `Client` dataclass of `clients_service.py`: the internal domain
model, which never carries `password_hash` or `api_key_hash`. -/
structure Client where
  id : Nat
  email : String
  subscription_tier : String
  active : Bool
  created_at : Nat
deriving DecidableEq

/-- Embedding of `clients_service._row_to_client`. -/
def row_to_client (row : ClientRow) : Client :=
  { id := row.id, email := row.email,
    subscription_tier := row.subscription_tier,
    active := row.active, created_at := row.created_at }

/-- The required API-key format marker, `clients_service.API_KEY_PREFIX`. -/
def apiKeyRequiredStart : String := "nf_live_"

/-- Embedding of `clients_service.resolve_client_by_api_key`. The second
component counts repository reads (`get_client_by_api_key_hash` calls),
so that "no storage lookup" is observable in the model: an empty or
wrong-format key is rejected before any read. -/
def resolve_client_by_api_key (hashKey : String → String)
    (clients : List ClientRow) (api_key : String) : Option Client × Nat :=
  if api_key = "" then (none, 0)
  else if !(api_key.startsWith apiKeyRequiredStart) then (none, 0)
  else
    match clients.find? (fun r => r.api_key_hash == hashKey api_key) with
    | none => (none, 1)
    | some row => if !row.active then (none, 1) else (some (row_to_client row), 1)

/-- One row of the `sessions` table: a session bound to one tenant, with
an expiry instant and a revoked marker, looked up by token digest. -/
structure SessionRow where
  token_hash : String
  client_id : Nat
  expires_at : Int
  revoked : Bool
deriving DecidableEq

/-- Modelled from the spec: `backend/services/sessions_service.py` is
absent from the source tree (it is only imported). Per the spec's session
scheme, resolution looks up a session by a one-way digest of the token
and rejects it if absent, expired, or revoked. -/
def get_active_session_for_token (hashTok : String → String) (now : Int)
    (sessions : List SessionRow) (raw_token : String) : Option SessionRow :=
  match sessions.find? (fun s => s.token_hash == hashTok raw_token) with
  | none => none
  | some s =>
    if s.revoked then none
    else if s.expires_at ≤ now then none
    else some s

/-- Modelled from the spec: the second lookup name imported from the
missing `sessions_service.py` (used by `require_session`, documented as
"looks up a non-expired session"); the spec specifies one session
resolution behaviour, so it is the same lookup. -/
def get_session_for_token (hashTok : String → String) (now : Int)
    (sessions : List SessionRow) (raw_token : String) : Option SessionRow :=
  get_active_session_for_token hashTok now sessions raw_token

/-- Embedding of `clients_service.resolve_client_by_session_token`:
reject an absent token, a token with no active session, a session whose
client row is gone, and an inactive client; otherwise resolve the
`Client`. -/
def resolve_client_by_session_token (hashTok : String → String) (now : Int)
    (sessions : List SessionRow) (clients : List ClientRow)
    (raw_token : String) : Option Client :=
  if raw_token = "" then none
  else
    match get_active_session_for_token hashTok now sessions raw_token with
    | none => none
    | some session =>
      match clients.find? (fun r => r.id == session.client_id) with
      | none => none
      | some row => if !row.active then none else some (row_to_client row)

/-! ## The `require_session` decorator (`backend/services/auth_service.py`) -/

/-- The fields declared by the frozen `Client` dataclass in
`clients_service.py`. -/
def clientDataclassFields : List String :=
  ["id", "email", "subscription_tier", "active", "created_at"]

/-- The keyword arguments `auth_service.require_session` passes when it
constructs `Client(...)` from the fetched row. -/
def requireSessionClientKwargs : List String :=
  ["id", "email", "password_hash", "api_key_hash",
   "subscription_tier", "active", "created_at"]

/-- Python calling convention for a dataclass-generated initializer:
calling it raises `TypeError` iff some keyword argument is not a declared
field or some declared field receives no argument. -/
def dataclassCallRaisesTypeError (fields kwargs : List String) : Bool :=
  kwargs.any (fun k => !(fields.contains k)) ||
    fields.any (fun f => !(kwargs.contains f))

/-- Outcome of a request passing through the `require_session` wrapper:
a 401 JSON rejection with its stable error code, an uncaught `TypeError`,
or invocation of the wrapped view. -/
inductive SessionAuthOutcome where
  | unauthorized : String → SessionAuthOutcome
  | typeError : SessionAuthOutcome
  | invoked : SessionAuthOutcome
deriving DecidableEq

/-- Embedding of the `require_session` wrapper: missing token → 401
`auth.session_missing`; no session for the token → 401
`auth.session_invalid`; no client row for the session → 401
`auth.session_client_missing`; otherwise it constructs
`Client(id=..., email=..., password_hash=..., api_key_hash=...,
subscription_tier=..., active=..., created_at=...)` from the row and, on
success, invokes the wrapped view. -/
def require_session (hashTok : String → String) (now : Int)
    (sessions : List SessionRow) (clients : List ClientRow)
    (raw_token : String) : SessionAuthOutcome :=
  if raw_token = "" then .unauthorized "auth.session_missing"
  else
    match get_session_for_token hashTok now sessions raw_token with
    | none => .unauthorized "auth.session_invalid"
    | some session =>
      match clients.find? (fun r => r.id == session.client_id) with
      | none => .unauthorized "auth.session_client_missing"
      | some _row =>
        if dataclassCallRaisesTypeError clientDataclassFields
            requireSessionClientKwargs then .typeError
        else .invoked

/-! ## Theorems -/

/-- Helper: `List.all` is invariant under permutation of the list. -/
theorem all_congr_of_perm {α : Type} (p : α → Bool) {l₁ l₂ : List α}
    (h : l₁.Perm l₂) : l₁.all p = l₂.all p := by
  induction h with
  | nil => rfl
  | cons x _ ih => simp [List.all_cons, ih]
  | swap x y l => simp [List.all_cons, Bool.and_left_comm, Bool.and_comm]
  | trans _ _ ih₁ ih₂ => exact ih₁.trans ih₂

example :
    evaluate_flag
      { key := "promo", enabled := true,
        conditions :=
          [ { attr := "subscription", operator := "equals",
              value := JVal.str "premium" },
            { attr := "country", operator := "in",
              value := JVal.list
                (JArr.cons (JVal.str "CA") (JArr.cons (JVal.str "US") .nil)) } ],
        parameters := [("discount", JVal.num 40)] }
      [("subscription", JVal.str "premium"), ("country", JVal.str "CA")]
    = { flag_key := "promo", enabled := true,
        parameters := [("discount", JVal.num 40)] } := by decide

example :
    evaluate_flag
      { key := "promo", enabled := true,
        conditions :=
          [ { attr := "subscription", operator := "equals",
              value := JVal.str "premium" },
            { attr := "country", operator := "in",
              value := JVal.list
                (JArr.cons (JVal.str "CA") (JArr.cons (JVal.str "US") .nil)) } ],
        parameters := [("discount", JVal.num 40)] }
      [("subscription", JVal.str "premium")]
    = { flag_key := "promo", enabled := false, parameters := [] } := by decide

/-- C1: for every flag whose `enabled` field is false, `evaluate_flag`
returns `{flag_key: flag.key, enabled: false, parameters: {}}` for every
conditions list and every user-attributes mapping; the result does not
depend on the conditions, which are never consulted. -/
theorem C1_kill_switch_dominates (flag : Flag) (user_attributes : UserAttrs)
    (h : flag.enabled = false) :
    evaluate_flag flag user_attributes
      = { flag_key := flag.key, enabled := false, parameters := [] } := by
  simp [evaluate_flag, h]

theorem C1_kill_switch_dominates_witness :
    evaluate_flag
      { key := "promo", enabled := false,
        conditions :=
          [{ attr := "country", operator := "equals", value := JVal.str "CA" }],
        parameters := [("discount", JVal.num 40)] }
      [("country", JVal.str "CA")]
      = { flag_key := "promo", enabled := false, parameters := [] } :=
  C1_kill_switch_dominates _ _ rfl

/-- C5: a condition with operator `in` on attribute `a` and reference
value `L` passes iff `a` is present in the user attributes, `L` is a
non-empty list, and the looked-up value of `a` is a member of `L`; when
`L` is empty or not a list the right-hand side is unsatisfiable, so the
condition fails for every user-attributes mapping (and the embedding is a
total function: no error is raised). -/
theorem C5_in_operator_semantics (user_attributes : UserAttrs) (cond : Condition)
    (hop : cond.operator = "in") :
    matchesCondition user_attributes cond = true ↔
      ∃ val, user_attributes.lookup cond.attr = some val ∧
        ∃ ref, cond.value = JVal.list ref ∧
          ref.isEmpty = false ∧ ref.containsVal val = true := by
  rcases cond with ⟨a, op, v⟩
  simp only at hop
  subst hop
  cases hl : user_attributes.lookup a with
  | none => simp [matchesCondition, hl]
  | some val =>
    cases v with
    | list ref =>
      cases href : ref.isEmpty with
      | true => simp [matchesCondition, hl, href]
      | false => simp [matchesCondition, hl, href]
    | null => simp [matchesCondition, hl]
    | bool b => simp [matchesCondition, hl]
    | num n => simp [matchesCondition, hl]
    | str s => simp [matchesCondition, hl]
    | obj o => simp [matchesCondition, hl]

theorem C5_in_operator_semantics_witness :
    matchesCondition [("country", JVal.str "CA")]
      { attr := "country", operator := "in",
        value := JVal.list (JArr.cons (JVal.str "CA") .nil) } = true :=
  (C5_in_operator_semantics _ _ rfl).mpr
    ⟨JVal.str "CA", rfl, JArr.cons (JVal.str "CA") .nil, rfl, rfl, by decide⟩

/-- C6: a condition whose operator is neither `equals` nor `in` evaluates
to non-match for every user-attributes mapping (the embedding is total:
no exception is raised on an unknown operator), and an enabled flag
containing such a condition — here with the condition's attribute present
in the user attributes — evaluates to enabled false with empty
parameters. -/
theorem C6_unknown_operator_fails_closed (flag : Flag) (cond : Condition)
    (u₁ user_attributes : UserAttrs) (val : JVal)
    (hmem : cond ∈ flag.conditions)
    (heq : cond.operator ≠ "equals") (hin : cond.operator ≠ "in")
    (hen : flag.enabled = true)
    (hval : user_attributes.lookup cond.attr = some val) :
    matchesCondition u₁ cond = false ∧
    evaluate_flag flag user_attributes
      = { flag_key := flag.key, enabled := false, parameters := [] } := by
  have hm : ∀ u : UserAttrs, matchesCondition u cond = false := by
    intro u
    unfold matchesCondition
    cases u.lookup cond.attr with
    | none => rfl
    | some w => simp [heq, hin]
  have hall : flag.conditions.all (matchesCondition user_attributes) = false := by
    rw [Bool.eq_false_iff]
    intro hall
    have := List.all_eq_true.mp hall cond hmem
    rw [hm user_attributes] at this
    exact Bool.false_ne_true this
  exact ⟨hm u₁, by simp [evaluate_flag, hen, hall]⟩

theorem C6_unknown_operator_fails_closed_witness :
    matchesCondition [] { attr := "country", operator := "matches",
                          value := JVal.str "CA" } = false ∧
    evaluate_flag
      { key := "promo", enabled := true,
        conditions :=
          [{ attr := "country", operator := "matches", value := JVal.str "CA" }],
        parameters := [("discount", JVal.num 40)] }
      [("country", JVal.str "CA")]
      = { flag_key := "promo", enabled := false, parameters := [] } :=
  C6_unknown_operator_fails_closed _ _ [] _ (JVal.str "CA")
    (by decide) (by decide) (by decide) rfl rfl

/-- C7: the evaluation result never leaks configured parameters when it
is disabled — whenever `evaluate_flag`'s result has `enabled = false`,
its `parameters` mapping is empty, for every flag and every
user-attributes mapping. -/
theorem C7_disabled_result_has_empty_parameters (flag : Flag)
    (user_attributes : UserAttrs)
    (h : (evaluate_flag flag user_attributes).enabled = false) :
    (evaluate_flag flag user_attributes).parameters = [] := by
  by_cases he : flag.enabled
  · by_cases ha : flag.conditions.all (matchesCondition user_attributes)
    · simp [evaluate_flag, he, ha] at h
    · simp [evaluate_flag, he, ha]
  · simp [evaluate_flag, he]

theorem C7_disabled_result_has_empty_parameters_witness :
    (evaluate_flag
      { key := "promo", enabled := false, conditions := [],
        parameters := [("discount", JVal.num 40)] } []).parameters = [] :=
  C7_disabled_result_has_empty_parameters _ _ (by decide)

/-- C8: for an enabled flag, permuting the conditions list in any way
leaves the result of `evaluate_flag` unchanged (same `enabled` value and
same `parameters`): the conjunction over conditions is commutative even
though evaluation short-circuits on the first failing condition. -/
theorem C8_condition_order_irrelevant (key : String)
    (conds conds' : List Condition) (parameters : List (String × JVal))
    (user_attributes : UserAttrs) (hperm : conds.Perm conds') :
    evaluate_flag
        { key := key, enabled := true, conditions := conds,
          parameters := parameters } user_attributes
      = evaluate_flag
          { key := key, enabled := true, conditions := conds',
            parameters := parameters } user_attributes := by
  simp only [evaluate_flag]
  rw [all_congr_of_perm (matchesCondition user_attributes) hperm]

theorem C8_condition_order_irrelevant_witness :
    evaluate_flag
      { key := "promo", enabled := true,
        conditions :=
          [ { attr := "subscription", operator := "equals",
              value := JVal.str "premium" },
            { attr := "country", operator := "in",
              value := JVal.list (JArr.cons (JVal.str "CA") .nil) } ],
        parameters := [("discount", JVal.num 40)] }
      [("subscription", JVal.str "premium")]
    = evaluate_flag
        { key := "promo", enabled := true,
          conditions :=
            [ { attr := "country", operator := "in",
                value := JVal.list (JArr.cons (JVal.str "CA") .nil) },
              { attr := "subscription", operator := "equals",
                value := JVal.str "premium" } ],
          parameters := [("discount", JVal.num 40)] }
        [("subscription", JVal.str "premium")] :=
  C8_condition_order_irrelevant "promo" _ _ _ _
    (List.Perm.swap
      ({ attr := "country", operator := "in",
         value := JVal.list (JArr.cons (JVal.str "CA") .nil) } : Condition)
      ({ attr := "subscription", operator := "equals",
         value := JVal.str "premium" } : Condition) [])

/-- C2: tenant isolation of the flag store. After any sequence of save
(upsert) and delete operations starting from the empty store, any row
returned by a lookup scoped to tenant `B` has `client_id = B`; since
every row saved under tenant `A` carries `client_id = A`, a flag stored
under a distinct tenant `A` (even with the same key) is never returned to
`B`. -/
theorem C2_tenant_isolation (ops : List FlagOp) (tenantA tenantB : Nat)
    (key : String) (row : FlagRow) (hne : tenantA ≠ tenantB)
    (hget : get_flag_by_key (applyFlagOps ops []) tenantB key = some row) :
    row.client_id = tenantB ∧ row.client_id ≠ tenantA := by
  unfold get_flag_by_key at hget
  have hp := List.find?_some hget
  simp only [Bool.and_eq_true, beq_iff_eq] at hp
  refine ⟨hp.1, fun h => hne ?_⟩
  rw [← h, hp.1]

theorem C2_tenant_isolation_witness :
    ({ client_id := 2, key := "promo", enabled := true, conditions := [],
       parameters := [] } : FlagRow).client_id = 2 ∧
    ({ client_id := 2, key := "promo", enabled := true, conditions := [],
       parameters := [] } : FlagRow).client_id ≠ 1 :=
  C2_tenant_isolation
    [ FlagOp.upsert 1
        { key := "promo", enabled := true, conditions := [], parameters := [] },
      FlagOp.upsert 2
        { key := "promo", enabled := true, conditions := [], parameters := [] } ]
    1 2 "promo" _ (by decide) (by decide)

/-- C4: the evaluation endpoint returns 404 `NotFound` exactly when the
flag key does not exist for the resolved tenant, and 200 with the
engine's result whenever the key exists — including for flags whose
`enabled` is false, which yield 200 with an `enabled:false` result, never
404. -/
theorem C4_evaluate_endpoint_contract (store : FlagStore) (client_id : Nat)
    (flag_key : String) (user_attributes : UserAttrs) :
    (get_flag_by_key store client_id flag_key = none →
      post_evaluate store client_id flag_key user_attributes = .notFound ∧
      (post_evaluate store client_id flag_key user_attributes).status = 404) ∧
    (∀ row, get_flag_by_key store client_id flag_key = some row →
      post_evaluate store client_id flag_key user_attributes
          = .ok (evaluate_flag row.toFlag user_attributes) ∧
      (post_evaluate store client_id flag_key user_attributes).status = 200) := by
  constructor
  · intro h
    simp [post_evaluate, h, EvalResponse.status]
  · intro row h
    simp [post_evaluate, h, EvalResponse.status]

theorem C4_evaluate_endpoint_contract_witness :
    (post_evaluate
        [{ client_id := 5, key := "promo", enabled := false, conditions := [],
           parameters := [("discount", JVal.num 40)] }] 5 "other" []
      = .notFound) ∧
    (post_evaluate
        [{ client_id := 5, key := "promo", enabled := false, conditions := [],
           parameters := [("discount", JVal.num 40)] }] 5 "promo" []
      = .ok { flag_key := "promo", enabled := false, parameters := [] }) :=
  ⟨((C4_evaluate_endpoint_contract _ 5 "other" []).1 (by decide)).1,
   ((C4_evaluate_endpoint_contract _ 5 "promo" []).2
      { client_id := 5, key := "promo", enabled := false, conditions := [],
        parameters := [("discount", JVal.num 40)] } (by decide)).1⟩

/-- C9: an API-key credential that does not start with `nf_live_`
(including the empty string, which never has that property) is rejected
with no storage read: for every digest function and every state of the
tenant store, resolution returns `none` with a repository read count of
zero. -/
theorem C9_bad_format_key_rejected_without_lookup (hashKey : String → String)
    (clients : List ClientRow) (api_key : String)
    (h : api_key.startsWith apiKeyRequiredStart = false) :
    resolve_client_by_api_key hashKey clients api_key = (none, 0) := by
  unfold resolve_client_by_api_key
  by_cases he : api_key = ""
  · simp [he]
  · simp [he, h]

theorem C9_bad_format_key_rejected_without_lookup_witness :
    resolve_client_by_api_key (fun s => s)
      [{ id := 7, email := "a@b.c", password_hash := "ph", api_key_hash := "sk_bad",
         subscription_tier := "free", active := true, created_at := 0 }]
      "sk_bad" = (none, 0) ∧
    resolve_client_by_api_key (fun s => s) [] "" = (none, 0) :=
  ⟨C9_bad_format_key_rejected_without_lookup _ _ "sk_bad" (by decide),
   C9_bad_format_key_rejected_without_lookup _ _ "" (by decide)⟩

/-- C3: session-scheme resolution
(`clients_service.resolve_client_by_session_token`, with the missing
`sessions_service` lookup modelled from the spec) returns the
unauthenticated outcome `none` whenever the token is absent, the
looked-up session is absent, expired, or revoked, or the session's
owning client row has `active = false`. -/
theorem C3_session_scheme_rejections (hashTok : String → String) (now : Int)
    (sessions : List SessionRow) (clients : List ClientRow)
    (raw_token : String) :
    (raw_token = "" →
      resolve_client_by_session_token hashTok now sessions clients raw_token
        = none) ∧
    (get_active_session_for_token hashTok now sessions raw_token = none →
      resolve_client_by_session_token hashTok now sessions clients raw_token
        = none) ∧
    (∀ s, sessions.find? (fun x => x.token_hash == hashTok raw_token) = some s →
      (s.revoked = true ∨ s.expires_at ≤ now) →
      resolve_client_by_session_token hashTok now sessions clients raw_token
        = none) ∧
    (∀ s row, get_active_session_for_token hashTok now sessions raw_token = some s →
      clients.find? (fun r => r.id == s.client_id) = some row →
      row.active = false →
      resolve_client_by_session_token hashTok now sessions clients raw_token
        = none) := by
  refine ⟨fun h => by simp [resolve_client_by_session_token, h], ?_, ?_, ?_⟩
  · intro h
    unfold resolve_client_by_session_token
    by_cases he : raw_token = ""
    · simp [he]
    · simp [he, h]
  · intro s hfind hbad
    have hnone : get_active_session_for_token hashTok now sessions raw_token
        = none := by
      unfold get_active_session_for_token
      rw [hfind]
      rcases hbad with hrev | hexp
      · simp [hrev]
      · cases hrev : s.revoked with
        | true => simp [hrev]
        | false => simp [hrev, hexp]
    unfold resolve_client_by_session_token
    by_cases he : raw_token = ""
    · simp [he]
    · simp [he, hnone]
  · intro s row hsess hrow hact
    unfold resolve_client_by_session_token
    by_cases he : raw_token = ""
    · simp [he]
    · simp [he, hsess, hrow, hact]

theorem C3_session_scheme_rejections_witness :
    resolve_client_by_session_token (fun s => s) 0
      [{ token_hash := "tok", client_id := 7, expires_at := 100, revoked := false }]
      [{ id := 7, email := "a@b.c", password_hash := "ph", api_key_hash := "akh",
         subscription_tier := "free", active := false, created_at := 0 }]
      "tok" = none :=
  (C3_session_scheme_rejections (fun s => s) 0 _ _ "tok").2.2.2
    { token_hash := "tok", client_id := 7, expires_at := 100, revoked := false }
    { id := 7, email := "a@b.c", password_hash := "ph", api_key_hash := "akh",
      subscription_tier := "free", active := false, created_at := 0 }
    (by decide) (by decide) rfl

/-- C10: whenever the session token resolves via `get_session_for_token`
to a session whose `client_id` matches an existing client row, the
`require_session` wrapper raises `TypeError` while constructing the
`Client` value (the frozen dataclass declares only `id`, `email`,
`subscription_tier`, `active`, `created_at`, but the wrapper passes
`password_hash` and `api_key_hash` keyword arguments), so the wrapped
view is never invoked through session authentication. -/
theorem C10_require_session_raises_type_error (hashTok : String → String)
    (now : Int) (sessions : List SessionRow) (clients : List ClientRow)
    (raw_token : String) (s : SessionRow) (row : ClientRow)
    (hraw : raw_token ≠ "")
    (hsess : get_session_for_token hashTok now sessions raw_token = some s)
    (hrow : clients.find? (fun r => r.id == s.client_id) = some row) :
    require_session hashTok now sessions clients raw_token
      = SessionAuthOutcome.typeError ∧
    require_session hashTok now sessions clients raw_token
      ≠ SessionAuthOutcome.invoked := by
  have hte : require_session hashTok now sessions clients raw_token
      = SessionAuthOutcome.typeError := by
    unfold require_session
    rw [if_neg hraw, hsess]
    have hd : dataclassCallRaisesTypeError clientDataclassFields
        requireSessionClientKwargs = true := by decide
    simp [hrow, hd]
  exact ⟨hte, by rw [hte]; exact fun h => SessionAuthOutcome.noConfusion h⟩

theorem C10_require_session_raises_type_error_witness :
    require_session (fun s => s) 0
      [{ token_hash := "tok", client_id := 7, expires_at := 100, revoked := false }]
      [{ id := 7, email := "a@b.c", password_hash := "ph", api_key_hash := "akh",
         subscription_tier := "free", active := true, created_at := 0 }]
      "tok" = SessionAuthOutcome.typeError :=
  (C10_require_session_raises_type_error (fun s => s) 0 _ _ "tok"
    { token_hash := "tok", client_id := 7, expires_at := 100, revoked := false }
    { id := 7, email := "a@b.c", password_hash := "ph", api_key_hash := "akh",
      subscription_tier := "free", active := true, created_at := 0 }
    (by decide) (by decide) (by decide)).1

end NimbusFlags
